import Mathlib

/-
Shallow embedding of src/simulator/simulator.py (smart-home sensor
simulator).  Numeric values are modelled as rationals; random draws
(random.gauss, random.random, random.randint) are modelled as explicit
parameters of the functions that consume them.  Python round(x, 1) is
modelled as round-half-to-even on tenths, matching CPython's rounding of
ties.
-/

namespace SmartSim

/-- Fields of the Python datetime value read by the generators
(now.hour, now.minute; second carried for completeness, never read). -/
structure Time where
  hour : ℕ
  minute : ℕ
  second : ℕ
deriving DecidableEq

/-- clamp(value, min_val, max_val) from simulator.py:
max(min_val, min(max_val, value)). -/
def clamp (value minVal maxVal : ℚ) : ℚ :=
  max minVal (min maxVal value)

/-- Nearest integer with ties to even, as CPython round resolves ties. -/
def roundHalfEven (y : ℚ) : ℤ :=
  let f := Int.floor y
  if y - f < 1/2 then f
  else if 1/2 < y - f then f + 1
  else if f % 2 = 0 then f else f + 1

/-- Python round(x, 1): round to one decimal place. -/
def round1 (x : ℚ) : ℚ :=
  (roundHalfEven (x * 10) : ℚ) / 10

/-- Hour-step part of the kitchen temperature baseline (the local
variable base in get_temperature_baseline, before the cooking bump). -/
def kitchen_temp_base (hour : ℕ) : ℚ :=
  if hour < 6 then 20.0
  else if hour < 9 then 21.0
  else if hour < 18 then 21.0
  else if hour < 23 then 22.0
  else 21.0

/-- get_temperature_baseline(profile, now) from simulator.py. -/
def get_temperature_baseline (profile : String) (now : Time) : ℚ :=
  let hour := now.hour
  if profile = "bedroom" then
    if hour < 6 then 19.0
    else if hour < 9 then 20.0
    else if hour < 18 then 21.0
    else if hour < 22 then 22.0
    else 20.0
  else if profile = "livingroom" then
    if hour < 6 then 20.0
    else if hour < 9 then 21.0
    else if hour < 18 then 22.0
    else if hour < 23 then 23.0
    else 21.0
  else if profile = "kitchen" then
    let base := kitchen_temp_base hour
    if (hour = 12 ∧ now.minute < 45) ∨ (hour = 19 ∧ now.minute < 45) then
      base + 3.0
    else
      base
  else
    21.0

/-- calculate_heat_index(temp_c, humidity) from simulator.py. -/
def calculate_heat_index (temp_c humidity : ℚ) : ℚ :=
  if temp_c < 24.0 then temp_c
  else
    let rh := clamp humidity 0.0 100.0
    let extra := max 0.0 ((rh - 40.0) / 10.0)
    let hi := temp_c + extra
    min hi (temp_c + 6.0)

/-- The clamp range (temp_min, temp_max) chosen per profile inside
simulate_temperature. -/
def temp_bounds (profile : String) : ℚ × ℚ :=
  if profile = "bedroom" then (16.0, 26.0)
  else if profile = "livingroom" then (18.0, 28.0)
  else (18.0, 30.0)

/-- simulate_temperature(profile, now, humidity_value) from simulator.py.
gauss models random.gauss(0, sigma): it maps the sigma the code passes to
the sampled noise value, so one quantifies over gauss to quantify over
the draw.  Returns (temperature, heat_index, status). -/
def simulate_temperature (profile : String) (now : Time)
    (humidity_value : ℚ) (gauss : ℚ → ℚ) : ℚ × ℚ × String :=
  let baseline := get_temperature_baseline profile now
  let noise := if profile = "bedroom" then gauss 0.3
    else if profile = "livingroom" then gauss 0.5
    else gauss 0.5
  let tb := temp_bounds profile
  let temp := round1 (clamp (baseline + noise) tb.1 tb.2)
  let heat_index := round1 (calculate_heat_index temp humidity_value)
  let status := if temp < 18.0 then "too_cold"
    else if 26.0 < temp then "too_hot"
    else "normal"
  (temp, heat_index, status)

/-- Hour-step part of the kitchen humidity baseline (the local variable
base in get_humidity_baseline, before the cooking bump). -/
def kitchen_hum_base (hour : ℕ) : ℚ :=
  if hour < 6 then 45.0
  else if hour < 18 then 47.0
  else 50.0

/-- get_humidity_baseline(profile, now) from simulator.py. -/
def get_humidity_baseline (profile : String) (now : Time) : ℚ :=
  let hour := now.hour
  if profile = "bedroom" ∨ profile = "livingroom" then
    if hour < 6 then 47.0
    else if hour < 18 then 43.0
    else 46.0
  else if profile = "kitchen" then
    let base := kitchen_hum_base hour
    if (hour = 12 ∧ now.minute < 45) ∨ (hour = 19 ∧ now.minute < 45) then
      base + 20.0
    else
      base
  else
    45.0

/-- The clamp range (hum_min, hum_max) chosen per profile inside
simulate_humidity. -/
def hum_bounds (profile : String) : ℚ × ℚ :=
  if profile = "bedroom" ∨ profile = "livingroom" then (25.0, 65.0)
  else (30.0, 80.0)

/-- simulate_humidity(profile, now) from simulator.py.
Returns (humidity, status). -/
def simulate_humidity (profile : String) (now : Time)
    (gauss : ℚ → ℚ) : ℚ × String :=
  let baseline := get_humidity_baseline profile now
  let noise := if profile = "bedroom" ∨ profile = "livingroom" then gauss 3.0
    else gauss 4.0
  let hb := hum_bounds profile
  let hum := round1 (clamp (baseline + noise) hb.1 hb.2)
  let status := if hum < 30.0 then "too_dry"
    else if 60.0 < hum then "too_humid"
    else "normal"
  (hum, status)

/-- One entry of the WINDOW_STATE dictionary:
the keys open (here isOpen) and minutes_left. -/
structure WindowState where
  isOpen : Bool
  minutes_left : ℤ
deriving DecidableEq

/-- Initial per-room entry of WINDOW_STATE: open=False, minutes_left=0. -/
def initial_window_state : WindowState :=
  ⟨false, 0⟩

/-- The open_prob computed by the closed branch of simulate_window
(initialised to 0.0, then set by the profile if/elif chain). -/
def open_prob (profile : String) (now : Time) : ℚ :=
  if profile = "bedroom" then
    if (7 ≤ now.hour ∧ now.hour < 9) ∨ (20 ≤ now.hour ∧ now.hour < 21)
    then 0.03 else 0.002
  else if profile = "livingroom" then
    if 10 ≤ now.hour ∧ now.hour < 18 then 0.02 else 0.003
  else if profile = "kitchen" then
    if (now.hour = 12 ∧ now.minute < 60) ∨ (now.hour = 19 ∧ now.minute < 60)
    then 0.05 else 0.004
  else 0.0

/-- Per-room step of simulate_window(room_id, profile, now) from
simulator.py, acting on that room's WINDOW_STATE entry.  u models the
random.random() draw, d the random.randint(10, 30) draw.  Returns the
updated state and the reported string. -/
def simulate_window (profile : String) (now : Time) (u : ℚ) (d : ℤ)
    (state : WindowState) : WindowState × String :=
  let state1 :=
    if state.isOpen then
      let ml := if 0 < state.minutes_left then state.minutes_left - 1
        else state.minutes_left
      if ml ≤ 0 then ⟨false, ml⟩ else ⟨true, ml⟩
    else
      if u < open_prob profile now then ⟨true, d⟩ else state
  (state1, if state1.isOpen then "OPEN" else "CLOSED")

/-- Runs simulate_window over a list of ticks; each tick supplies the
timestamp and the two random draws (now, u, d).  Returns the list of
reported strings and the final state. -/
def runWindow (profile : String) (s : WindowState) :
    List (Time × ℚ × ℤ) → List String × WindowState
  | [] => ([], s)
  | t :: ts =>
    let r := simulate_window profile t.1 t.2.1 t.2.2 s
    let rest := runWindow profile r.1 ts
    (r.2 :: rest.1, rest.2)

/-- simulate_smoke(profile, now) from simulator.py. -/
def simulate_smoke (profile : String) (now : Time) : ℕ :=
  if profile ≠ "kitchen" then 0
  else if now.hour = 12 ∧ 20 ≤ now.minute ∧ now.minute < 23 then 1
  else if now.hour = 19 ∧ 10 ≤ now.minute ∧ now.minute < 13 then 1
  else 0

/-- The ROOMS mapping of simulator.py as an ordered list of
(room_id, room name, profile), in the dictionary's insertion order. -/
def ROOMS : List (String × String × String) :=
  [("room1", "kitchen", "kitchen"),
   ("room2", "livingroom", "livingroom"),
   ("room3", "bedroom", "bedroom")]

/-- Topic for one sensor: home/room_id/sensor/SENSOR_ID with
SENSOR_ID = "1". -/
def topic (room_id sensor : String) : String :=
  "home/" ++ room_id ++ "/" ++ sensor ++ "/1"

/-- The publish topics attempted by one iteration of the main loop, in
program order: for each room of ROOMS, humidity, then temperature, then
window, then smoke. -/
def tick_topics : List String :=
  (ROOMS.map (fun r =>
    [topic r.1 "humidity", topic r.1 "temperature",
     topic r.1 "window", topic r.1 "smoke"])).flatten

/-- Sequential publishing with Python exception semantics: publish_json
has no try/except and neither does the tick loop of main, so the first
publish call that raises aborts the remaining calls.  pub models
client.publish: ok on success, error on a raised exception.  Returns
the topics published successfully and the escaped exception, if any. -/
def publish_seq (pub : String → Except String Unit) :
    List String → List String × Option String
  | [] => ([], none)
  | t :: ts =>
    match pub t with
    | Except.ok _ =>
      let r := publish_seq pub ts
      (t :: r.1, r.2)
    | Except.error e => ([], some e)

/-- One tick of main's publishing loop over all rooms and sensors. -/
def run_tick (pub : String → Except String Unit) :
    List String × Option String :=
  publish_seq pub tick_topics

/-- A publish sink that raises exactly on room1's temperature topic and
succeeds everywhere else. -/
def pub_fail_room1_temp : String → Except String Unit :=
  fun t => if t = topic "room1" "temperature" then Except.error "publish failed"
    else Except.ok ()

/-- The global WINDOW_STATE dictionary, modelled as a map from room_id
to that room's entry. -/
def SimState : Type :=
  String → WindowState

/-- WINDOW_STATE as initialised at module load: every room's entry is
open=False, minutes_left=0. -/
def WINDOW_STATE_init : SimState :=
  fun _ => initial_window_state

/-- simulate_window at the level of the whole WINDOW_STATE dictionary:
it reads and writes only the entry of room_id. -/
def simulate_window_g (room_id profile : String) (now : Time) (u : ℚ)
    (d : ℤ) (W : SimState) : SimState × String :=
  let r := simulate_window profile now u d (W room_id)
  (fun k => if k = room_id then r.1 else W k, r.2)

/-- simulate_temperature threaded through the global state: its body
never references WINDOW_STATE, so the state passes through unchanged. -/
def simulate_temperature_g (profile : String) (now : Time)
    (humidity_value : ℚ) (gauss : ℚ → ℚ) (W : SimState) :
    SimState × (ℚ × ℚ × String) :=
  (W, simulate_temperature profile now humidity_value gauss)

/-- simulate_humidity threaded through the global state: its body never
references WINDOW_STATE, so the state passes through unchanged. -/
def simulate_humidity_g (profile : String) (now : Time) (gauss : ℚ → ℚ)
    (W : SimState) : SimState × (ℚ × String) :=
  (W, simulate_humidity profile now gauss)

/-- simulate_smoke threaded through the global state: its body never
references WINDOW_STATE, so the state passes through unchanged. -/
def simulate_smoke_g (profile : String) (now : Time) (W : SimState) :
    SimState × ℕ :=
  (W, simulate_smoke profile now)

/-- Invariant on one WINDOW_STATE entry: closed entries carry a zero
countdown, open entries carry a countdown between 1 and 30. -/
def WindowInv (s : WindowState) : Prop :=
  (s.isOpen = false → s.minutes_left = 0) ∧
  (s.isOpen = true → 1 ≤ s.minutes_left ∧ s.minutes_left ≤ 30)

/-- Modelled from the spec for the refinement comparison of the heat
index: temperature unchanged below 24.0, otherwise temperature plus
max(0, (humidity-40)/10) capped at temperature + 6.0. -/
def heat_index_spec (t h : ℚ) : ℚ :=
  if t < 24.0 then t
  else t + min (max 0 ((h - 40.0) / 10.0)) 6.0

/-- Modelled from the spec for the refinement comparison of the
per-sensor bias claim: the temperature pipeline with a deterministic
bias of (sensor_index - 1) * 0.2 added to the baseline. -/
def spec_temperature_biased (sensor_index : ℕ) (profile : String)
    (now : Time) (humidity_value : ℚ) (gauss : ℚ → ℚ) : ℚ × ℚ × String :=
  let baseline := get_temperature_baseline profile now
    + ((sensor_index : ℚ) - 1) * 0.2
  let noise := if profile = "bedroom" then gauss 0.3
    else if profile = "livingroom" then gauss 0.5
    else gauss 0.5
  let tb := temp_bounds profile
  let temp := round1 (clamp (baseline + noise) tb.1 tb.2)
  let heat_index := round1 (calculate_heat_index temp humidity_value)
  let status := if temp < 18.0 then "too_cold"
    else if 26.0 < temp then "too_hot"
    else "normal"
  (temp, heat_index, status)

/-- Modelled from the spec for the refinement comparison of the
per-sensor bias claim: the humidity pipeline with a deterministic bias
of (sensor_index - 1) * 0.5 added to the baseline. -/
def spec_humidity_biased (sensor_index : ℕ) (profile : String)
    (now : Time) (gauss : ℚ → ℚ) : ℚ × String :=
  let baseline := get_humidity_baseline profile now
    + ((sensor_index : ℚ) - 1) * 0.5
  let noise := if profile = "bedroom" ∨ profile = "livingroom" then gauss 3.0
    else gauss 4.0
  let hb := hum_bounds profile
  let hum := round1 (clamp (baseline + noise) hb.1 hb.2)
  let status := if hum < 30.0 then "too_dry"
    else if 60.0 < hum then "too_humid"
    else "normal"
  (hum, status)

/-- The two smoke-alarm time windows of the spec, stated over full
timestamps: 12:20:00 to 12:22:59 and 19:10:00 to 19:12:59. -/
def smoke_window (t : Time) : Prop :=
  (t.hour = 12 ∧ 20 ≤ t.minute ∧ t.minute ≤ 22) ∨
  (t.hour = 19 ∧ 10 ≤ t.minute ∧ t.minute ≤ 12)

instance (t : Time) : Decidable (smoke_window t) := by
  unfold smoke_window
  infer_instance

/-- Interval tables (start hour inclusive, end hour exclusive, value)
restating each hour-step baseline as explicit intervals covering 0..23;
the final interval spells out the catch-all else branch. -/
def bedroom_temp_table : List (ℕ × ℕ × ℚ) :=
  [(0, 6, 19.0), (6, 9, 20.0), (9, 18, 21.0), (18, 22, 22.0), (22, 24, 20.0)]

def livingroom_temp_table : List (ℕ × ℕ × ℚ) :=
  [(0, 6, 20.0), (6, 9, 21.0), (9, 18, 22.0), (18, 23, 23.0), (23, 24, 21.0)]

def kitchen_temp_table : List (ℕ × ℕ × ℚ) :=
  [(0, 6, 20.0), (6, 9, 21.0), (9, 18, 21.0), (18, 23, 22.0), (23, 24, 21.0)]

def shared_hum_table : List (ℕ × ℕ × ℚ) :=
  [(0, 6, 47.0), (6, 18, 43.0), (18, 24, 46.0)]

def kitchen_hum_table : List (ℕ × ℕ × ℚ) :=
  [(0, 6, 45.0), (6, 18, 47.0), (18, 24, 50.0)]

/-- Whether hour h lies in interval iv of a table. -/
def inInterval (iv : ℕ × ℕ × ℚ) (h : ℕ) : Bool :=
  decide (iv.1 ≤ h ∧ h < iv.2.1)

/-- Value of the first table interval containing h (dflt if none). -/
def tableLookup (tbl : List (ℕ × ℕ × ℚ)) (dflt : ℚ) (h : ℕ) : ℚ :=
  match tbl.find? (fun iv => inInterval iv h) with
  | some iv => iv.2.2
  | none => dflt

lemma le_clamp (v a b : ℚ) : a ≤ clamp v a b :=
  le_max_left _ _

lemma clamp_le (v a b : ℚ) (h : a ≤ b) : clamp v a b ≤ b :=
  max_le h (min_le_left _ _)

lemma intCast_le_roundHalfEven (m : ℤ) (y : ℚ) (h : (m : ℚ) ≤ y) :
    m ≤ roundHalfEven y := by
  have hf : m ≤ Int.floor y := Int.le_floor.mpr h
  unfold roundHalfEven
  dsimp only
  split
  · exact hf
  · split
    · omega
    · split <;> omega

lemma roundHalfEven_le_intCast (M : ℤ) (y : ℚ) (h : y ≤ (M : ℚ)) :
    roundHalfEven y ≤ M := by
  have hf : Int.floor y ≤ M := by
    have h2 := Int.floor_le_floor h
    simpa using h2
  unfold roundHalfEven
  dsimp only
  split
  · exact hf
  · rename_i h1
    have hfl : (Int.floor y : ℚ) < y := by
      have h3 : (1 : ℚ)/2 ≤ y - Int.floor y := le_of_not_lt h1
      linarith
    have hlt : Int.floor y < M := by
      have : (Int.floor y : ℚ) < (M : ℚ) := lt_of_lt_of_le hfl h
      exact_mod_cast this
    split
    · omega
    · split <;> omega

lemma round1_bounds (a b : ℤ) (x : ℚ) (h1 : (a : ℚ)/10 ≤ x)
    (h2 : x ≤ (b : ℚ)/10) :
    (a : ℚ)/10 ≤ round1 x ∧ round1 x ≤ (b : ℚ)/10 := by
  have ha : (a : ℚ) ≤ x * 10 := by linarith
  have hb : x * 10 ≤ (b : ℚ) := by linarith
  have h3 := intCast_le_roundHalfEven a _ ha
  have h4 := roundHalfEven_le_intCast b _ hb
  have h3q : (a : ℚ) ≤ (roundHalfEven (x * 10) : ℚ) := by exact_mod_cast h3
  have h4q : ((roundHalfEven (x * 10) : ℚ)) ≤ (b : ℚ) := by exact_mod_cast h4
  unfold round1
  constructor <;> linarith

lemma round1_clamp_bounds (a b : ℤ) (lo hi v : ℚ) (hlo : lo = (a : ℚ)/10)
    (hhi : hi = (b : ℚ)/10) (hab : lo ≤ hi) :
    lo ≤ round1 (clamp v lo hi) ∧ round1 (clamp v lo hi) ≤ hi := by
  subst hlo
  subst hhi
  exact round1_bounds a b _ (le_clamp v _ _) (clamp_le v _ _ hab)

lemma temp_bounds_div10 (profile : String) :
    ∃ a b : ℤ, (temp_bounds profile).1 = (a : ℚ)/10 ∧
      (temp_bounds profile).2 = (b : ℚ)/10 ∧
      (temp_bounds profile).1 ≤ (temp_bounds profile).2 := by
  unfold temp_bounds
  split
  · exact ⟨160, 260, by norm_num⟩
  · split
    · exact ⟨180, 280, by norm_num⟩
    · exact ⟨180, 300, by norm_num⟩

lemma hum_bounds_div10 (profile : String) :
    ∃ a b : ℤ, (hum_bounds profile).1 = (a : ℚ)/10 ∧
      (hum_bounds profile).2 = (b : ℚ)/10 ∧
      (hum_bounds profile).1 ≤ (hum_bounds profile).2 := by
  unfold hum_bounds
  split
  · exact ⟨250, 650, by norm_num⟩
  · exact ⟨300, 800, by norm_num⟩

/-- C2: for every profile, timestamp and Gaussian noise draw, the
temperature returned by simulate_temperature lies within the profile's
clamp bounds (bedroom 16.0 to 26.0, livingroom 18.0 to 28.0, kitchen
18.0 to 30.0) and the humidity returned by simulate_humidity lies
within its profile bounds (bedroom/livingroom 25.0 to 65.0, kitchen
30.0 to 80.0), regardless of noise magnitude. -/
theorem temperature_humidity_within_bounds (profile : String) (t : Time)
    (hv : ℚ) (gauss : ℚ → ℚ) :
    ((temp_bounds profile).1 ≤ (simulate_temperature profile t hv gauss).1 ∧
     (simulate_temperature profile t hv gauss).1 ≤ (temp_bounds profile).2) ∧
    ((hum_bounds profile).1 ≤ (simulate_humidity profile t gauss).1 ∧
     (simulate_humidity profile t gauss).1 ≤ (hum_bounds profile).2) ∧
    temp_bounds "bedroom" = (16.0, 26.0) ∧
    temp_bounds "livingroom" = (18.0, 28.0) ∧
    temp_bounds "kitchen" = (18.0, 30.0) ∧
    hum_bounds "bedroom" = (25.0, 65.0) ∧
    hum_bounds "livingroom" = (25.0, 65.0) ∧
    hum_bounds "kitchen" = (30.0, 80.0) := by
  refine ⟨?_, ?_, by simp [temp_bounds], by simp [temp_bounds],
    by simp [temp_bounds], by simp [hum_bounds],
    by simp [hum_bounds], by simp [hum_bounds]⟩
  · have hT : (simulate_temperature profile t hv gauss).1 =
        round1 (clamp (get_temperature_baseline profile t +
          (if profile = "bedroom" then gauss 0.3
           else if profile = "livingroom" then gauss 0.5 else gauss 0.5))
          (temp_bounds profile).1 (temp_bounds profile).2) := rfl
    rw [hT]
    obtain ⟨a, b, ha, hb, hab⟩ := temp_bounds_div10 profile
    exact round1_clamp_bounds a b _ _ _ ha hb hab
  · have hH : (simulate_humidity profile t gauss).1 =
        round1 (clamp (get_humidity_baseline profile t +
          (if profile = "bedroom" ∨ profile = "livingroom" then gauss 3.0
           else gauss 4.0))
          (hum_bounds profile).1 (hum_bounds profile).2) := rfl
    rw [hH]
    obtain ⟨a, b, ha, hb, hab⟩ := hum_bounds_div10 profile
    exact round1_clamp_bounds a b _ _ _ ha hb hab

/-- C4: for every temperature t and humidity h, the heat index equals t
unchanged when t < 24.0, and otherwise equals t plus
max(0, (h-40)/10) capped at t + 6.0, with the published value rounded
to 1 decimal place. -/
theorem heat_index_matches_spec (tc h : ℚ) (profile : String) (now : Time)
    (hv : ℚ) (gauss : ℚ → ℚ) :
    calculate_heat_index tc h = heat_index_spec tc h ∧
    (simulate_temperature profile now hv gauss).2.1 =
      round1 (calculate_heat_index
        (simulate_temperature profile now hv gauss).1 hv) := by
  constructor
  · unfold calculate_heat_index heat_index_spec clamp
    by_cases h24 : tc < 24.0
    · simp [h24]
    · simp only [if_neg h24]
      simp only [min_def, max_def]
      split_ifs <;> norm_num at * <;> linarith
  · rfl

/-- C3: simulate_smoke returns 1 for the kitchen profile if and only if
the local time falls in 12:20:00 to 12:22:59 or 19:10:00 to 19:12:59,
and returns 0 for every non-kitchen profile at all times. -/
theorem smoke_deterministic (profile : String) (t : Time) :
    (simulate_smoke profile t = 1 ↔ profile = "kitchen" ∧ smoke_window t) ∧
    (profile ≠ "kitchen" → simulate_smoke profile t = 0) := by
  by_cases hp : profile = "kitchen"
  · subst hp
    refine ⟨?_, by simp⟩
    unfold simulate_smoke smoke_window
    simp only [ne_eq, not_true_eq_false, if_false, true_and]
    split_ifs with h1 h2 <;> simp <;> omega
  · unfold simulate_smoke
    simp [hp]

/-- Witness for C3 at a concrete non-kitchen profile and timestamp. -/
theorem smoke_deterministic_witness :
    simulate_smoke "bedroom" ⟨12, 21, 0⟩ = 0 :=
  (smoke_deterministic "bedroom" ⟨12, 21, 0⟩).2 (by simp)

/-- C5: for the kitchen profile, the temperature baseline is increased
by exactly +3.0 when the local time is within 12:00 to 12:44 or 19:00
to 19:44 and not otherwise; at 12:30 the kitchen temperature baseline
equals 21.0 + 3.0 = 24.0 before noise and clamping. -/
theorem kitchen_cooking_boost :
    (∀ t : Time, get_temperature_baseline "kitchen" t =
      kitchen_temp_base t.hour +
        (if (t.hour = 12 ∧ t.minute < 45) ∨ (t.hour = 19 ∧ t.minute < 45)
         then 3.0 else 0)) ∧
    get_temperature_baseline "kitchen" ⟨12, 30, 0⟩ = 21.0 + 3.0 ∧
    kitchen_temp_base 12 = 21.0 := by
  refine ⟨?_, ?_, by norm_num [kitchen_temp_base]⟩
  · intro t
    unfold get_temperature_baseline
    simp only [show ("kitchen" : String) ≠ "bedroom" by simp,
      show ("kitchen" : String) ≠ "livingroom" by simp, if_false,
      reduceIte]
    split_ifs <;> simp
  · simp [get_temperature_baseline, kitchen_temp_base]

/-- C6: for every hour 0 to 23 the temperature and humidity baseline
step functions have exactly one matching interval (no gaps, no
overlaps) and the lookups agree with those intervals; any profile other
than bedroom, livingroom and kitchen falls back to the defaults 21.0
(temperature) and 45.0 (humidity). -/
theorem baseline_totality :
    (∀ h, h < 24 →
      bedroom_temp_table.countP (fun iv => inInterval iv h) = 1 ∧
      livingroom_temp_table.countP (fun iv => inInterval iv h) = 1 ∧
      kitchen_temp_table.countP (fun iv => inInterval iv h) = 1 ∧
      shared_hum_table.countP (fun iv => inInterval iv h) = 1 ∧
      kitchen_hum_table.countP (fun iv => inInterval iv h) = 1) ∧
    (∀ t : Time, t.hour < 24 →
      get_temperature_baseline "bedroom" t =
        tableLookup bedroom_temp_table 21.0 t.hour ∧
      get_temperature_baseline "livingroom" t =
        tableLookup livingroom_temp_table 21.0 t.hour ∧
      kitchen_temp_base t.hour = tableLookup kitchen_temp_table 21.0 t.hour ∧
      get_humidity_baseline "bedroom" t =
        tableLookup shared_hum_table 45.0 t.hour ∧
      get_humidity_baseline "livingroom" t =
        tableLookup shared_hum_table 45.0 t.hour ∧
      kitchen_hum_base t.hour = tableLookup kitchen_hum_table 45.0 t.hour) ∧
    (∀ (p : String) (t : Time),
      p ≠ "bedroom" → p ≠ "livingroom" → p ≠ "kitchen" →
      get_temperature_baseline p t = 21.0 ∧
      get_humidity_baseline p t = 45.0) := by
  refine ⟨by decide, ?_, ?_⟩
  · intro t ht
    obtain ⟨h, m, s⟩ := t
    dsimp only at ht ⊢
    interval_cases h <;>
      refine ⟨?_, ?_, ?_, ?_, ?_, ?_⟩ <;>
      simp [get_temperature_baseline, get_humidity_baseline,
        kitchen_temp_base, kitchen_hum_base, tableLookup,
        bedroom_temp_table, livingroom_temp_table, kitchen_temp_table,
        shared_hum_table, kitchen_hum_table, inInterval, List.find?]
  · intro p t h1 h2 h3
    constructor
    · unfold get_temperature_baseline
      simp [h1, h2, h3]
    · unfold get_humidity_baseline
      simp [h1, h2, h3]

/-- Witness for C6 at hour 12 and an undefined profile. -/
theorem baseline_totality_witness :
    bedroom_temp_table.countP (fun iv => inInterval iv 12) = 1 ∧
    get_temperature_baseline "garage" ⟨3, 0, 0⟩ = 21.0 ∧
    get_humidity_baseline "garage" ⟨3, 0, 0⟩ = 45.0 :=
  ⟨(baseline_totality.1 12 (by norm_num)).1,
   (baseline_totality.2.2 "garage" ⟨3, 0, 0⟩ (by simp) (by simp) (by simp)).1,
   (baseline_totality.2.2 "garage" ⟨3, 0, 0⟩ (by simp) (by simp) (by simp)).2⟩

lemma simulate_window_open_step (profile : String) (t : Time) (u : ℚ)
    (d k : ℤ) (h1 : 1 ≤ k) :
    simulate_window profile t u d ⟨true, k⟩ =
      if k = 1 then (⟨false, 0⟩, "CLOSED") else (⟨true, k - 1⟩, "OPEN") := by
  by_cases hk : k = 1
  · subst hk
    simp [simulate_window]
  · have h2 : ¬ (k - 1 ≤ 0) := by omega
    simp [simulate_window, hk, show (0 : ℤ) < k by omega, h2]

lemma runWindow_open_countdown (profile : String) :
    ∀ (ts : List (Time × ℚ × ℤ)) (k : ℤ), 1 ≤ k → (ts.length : ℤ) = k →
      (runWindow profile ⟨true, k⟩ ts).1 =
        List.replicate (ts.length - 1) "OPEN" ++ ["CLOSED"] ∧
      (runWindow profile ⟨true, k⟩ ts).2 = ⟨false, 0⟩ := by
  intro ts
  induction ts with
  | nil =>
    intro k h1 h2
    simp at h2
    omega
  | cons a ts ih =>
    intro k h1 h2
    have hstep := simulate_window_open_step profile a.1 a.2.1 a.2.2 k h1
    by_cases hk : k = 1
    · subst hk
      have hts : ts = [] := by
        have hl := h2
        rw [List.length_cons] at hl
        push_cast at hl
        have hl0 : ts.length = 0 := by omega
        exact List.eq_nil_of_length_eq_zero hl0
      subst hts
      simp [runWindow, hstep]
    · have h2' : (ts.length : ℤ) = k - 1 := by
        rw [List.length_cons] at h2
        push_cast at h2
        omega
      have hlen1 : 1 ≤ ts.length := by omega
      obtain ⟨ihl, ihs⟩ := ih (k - 1) (by omega) h2'
      constructor
      · show ((simulate_window profile a.1 a.2.1 a.2.2 ⟨true, k⟩).2 ::
          (runWindow profile (simulate_window profile a.1 a.2.1 a.2.2
            ⟨true, k⟩).1 ts).1) = _
        rw [hstep]
        simp only [if_neg hk]
        rw [ihl]
        have hrep : (a :: ts).length - 1 = (ts.length - 1) + 1 := by
          rw [List.length_cons]
          omega
        rw [hrep, List.replicate_succ]
        simp
      · show (runWindow profile (simulate_window profile a.1 a.2.1 a.2.2
          ⟨true, k⟩).1 ts).2 = _
        rw [hstep]
        simp only [if_neg hk]
        exact ihs

/-- C1: if a tick transitions a CLOSED window sensor to OPEN with an
episode duration d drawn in 10..30, that same tick reports OPEN with
state (open, d); the sensor then reports OPEN for exactly d consecutive
ticks counting the transition tick, regardless of the later random
draws (no re-open during the countdown), and the tick entered with
minutes_left = 1 reports CLOSED with the state back to (closed, 0). -/
theorem window_episode_trace (profile : String) (t : Time) (u : ℚ)
    (d : ℤ) (s : WindowState) (ts : List (Time × ℚ × ℤ))
    (hclosed : s.isOpen = false) (htrans : u < open_prob profile t)
    (hd1 : 10 ≤ d) (hd2 : d ≤ 30) (hlen : (ts.length : ℤ) = d) :
    (simulate_window profile t u d s).2 = "OPEN" ∧
    (simulate_window profile t u d s).1 = ⟨true, d⟩ ∧
    (runWindow profile ⟨true, d⟩ ts).1 =
      List.replicate (ts.length - 1) "OPEN" ++ ["CLOSED"] ∧
    (runWindow profile ⟨true, d⟩ ts).2 = ⟨false, 0⟩ := by
  obtain ⟨hrun1, hrun2⟩ :=
    runWindow_open_countdown profile ts d (by omega) hlen
  refine ⟨?_, ?_, hrun1, hrun2⟩ <;> simp [simulate_window, hclosed, htrans]

/-- Witness for C1: a bedroom sensor opening at 07:30 with duration 10
stays OPEN for 10 ticks and reports CLOSED on the 11th. -/
theorem window_episode_trace_witness :
    (simulate_window "bedroom" ⟨7, 30, 0⟩ 0 10 ⟨false, 0⟩).2 = "OPEN" ∧
    (simulate_window "bedroom" ⟨7, 30, 0⟩ 0 10 ⟨false, 0⟩).1 = ⟨true, 10⟩ ∧
    (runWindow "bedroom" ⟨true, 10⟩
        (List.replicate 10 (⟨8, 0, 0⟩, 0, 0))).1 =
      List.replicate 9 "OPEN" ++ ["CLOSED"] ∧
    (runWindow "bedroom" ⟨true, 10⟩
        (List.replicate 10 (⟨8, 0, 0⟩, 0, 0))).2 = ⟨false, 0⟩ := by
  have h := window_episode_trace "bedroom" ⟨7, 30, 0⟩ 0 10 ⟨false, 0⟩
    (List.replicate 10 (⟨8, 0, 0⟩, 0, 0)) rfl
    (by norm_num [open_prob]) (by norm_num) (by norm_num) (by simp)
  simpa using h

lemma windowInv_step (profile : String) (t : Time) (u : ℚ) (d : ℤ)
    (s : WindowState) (hd1 : 10 ≤ d) (hd2 : d ≤ 30) (hs : WindowInv s) :
    WindowInv (simulate_window profile t u d s).1 := by
  obtain ⟨so, ml⟩ := s
  obtain ⟨hc, ho⟩ := hs
  cases so
  · have hml : ml = 0 := hc rfl
    subst hml
    by_cases hu : u < open_prob profile t
    · simp [simulate_window, WindowInv, hu]
      omega
    · simp [simulate_window, WindowInv, hu]
  · obtain ⟨hm1, hm2⟩ := ho rfl
    dsimp only at hm1 hm2
    have hstep := simulate_window_open_step profile t u d ml hm1
    by_cases hm : ml = 1
    · subst hm
      rw [hstep]
      simp [WindowInv]
    · rw [hstep]
      simp only [if_neg hm]
      show WindowInv ⟨true, ml - 1⟩
      unfold WindowInv
      dsimp only
      exact ⟨fun h => Bool.noConfusion h, fun _ => ⟨by omega, by omega⟩⟩

lemma windowInv_run (profile : String) :
    ∀ (ts : List (Time × ℚ × ℤ)) (s : WindowState), WindowInv s →
      (∀ x ∈ ts, 10 ≤ x.2.2 ∧ x.2.2 ≤ 30) →
      WindowInv (runWindow profile s ts).2 := by
  intro ts
  induction ts with
  | nil => intro s hs _; exact hs
  | cons a ts ih =>
    intro s hs hts
    have ha := hts a (by simp)
    have hstep := windowInv_step profile a.1 a.2.1 a.2.2 s ha.1 ha.2 hs
    exact ih _ hstep (fun x hx => hts x (by simp [hx]))

/-- C9: every room's window state starts as open=false, minutes_left=0;
WindowInv (closed implies zero countdown, open implies countdown in
1..30) holds of the initial state, is preserved by every
simulate_window call whose duration draw lies in 10..30, and therefore
holds in every state reachable by the tick loop. -/
theorem window_state_invariant :
    (∀ room_id, WINDOW_STATE_init room_id = ⟨false, 0⟩) ∧
    WindowInv initial_window_state ∧
    (∀ (profile : String) (t : Time) (u : ℚ) (d : ℤ) (s : WindowState),
      10 ≤ d → d ≤ 30 → WindowInv s →
      WindowInv (simulate_window profile t u d s).1) ∧
    (∀ (profile : String) (ts : List (Time × ℚ × ℤ)),
      (∀ x ∈ ts, 10 ≤ x.2.2 ∧ x.2.2 ≤ 30) →
      WindowInv (runWindow profile initial_window_state ts).2) := by
  refine ⟨fun _ => rfl, ⟨fun _ => rfl, by simp [initial_window_state]⟩,
    ?_, ?_⟩
  · intro profile t u d s h1 h2 hs
    exact windowInv_step profile t u d s h1 h2 hs
  · intro profile ts hts
    exact windowInv_run profile ts initial_window_state
      ⟨fun _ => rfl, by simp [initial_window_state]⟩ hts

/-- Witness for C9 at a concrete transition tick. -/
theorem window_state_invariant_witness :
    WindowInv (simulate_window "bedroom" ⟨0, 0, 0⟩ 1 15 ⟨false, 0⟩).1 :=
  window_state_invariant.2.2.1 "bedroom" ⟨0, 0, 0⟩ 1 15 ⟨false, 0⟩
    (by norm_num) (by norm_num) ⟨fun _ => rfl, by simp⟩

/-- C10: a simulate_window call for room_id mutates at most the
WINDOW_STATE entry of room_id (every other room's entry is unchanged,
and the room_id entry becomes exactly the per-room step's result),
while simulate_temperature, simulate_humidity and simulate_smoke never
modify WINDOW_STATE at all. -/
theorem window_state_frame (W : SimState) (room_id profile : String)
    (t : Time) (u : ℚ) (d : ℤ) (hv : ℚ) (g : ℚ → ℚ) :
    (∀ r, r ≠ room_id →
      (simulate_window_g room_id profile t u d W).1 r = W r) ∧
    (simulate_window_g room_id profile t u d W).1 room_id =
      (simulate_window profile t u d (W room_id)).1 ∧
    (simulate_temperature_g profile t hv g W).1 = W ∧
    (simulate_humidity_g profile t g W).1 = W ∧
    (simulate_smoke_g profile t W).1 = W := by
  refine ⟨?_, ?_, rfl, rfl, rfl⟩
  · intro r hr
    unfold simulate_window_g
    simp [hr]
  · unfold simulate_window_g
    simp

/-- Witness for C10: room2's entry is untouched by a window step on
room1. -/
theorem window_state_frame_witness :
    (simulate_window_g "room1" "kitchen" ⟨0, 0, 0⟩ 1 15
      WINDOW_STATE_init).1 "room2" = WINDOW_STATE_init "room2" :=
  (window_state_frame WINDOW_STATE_init "room1" "kitchen" ⟨0, 0, 0⟩ 1 15
    0 (fun _ => 0)).1 "room2" (by simp)

/-- C7 counterexample: with a sink that raises only on room1's
temperature publish, the remaining topics of the tick are not
published; in particular room1's window topic is attempted but never
published, refuting per-publish error isolation. -/
theorem publish_failure_not_isolated :
    ¬ (∀ t' ∈ tick_topics, t' ≠ topic "room1" "temperature" →
        t' ∈ (run_tick pub_fail_room1_temp).1) := by
  intro hall
  have h1 : topic "room1" "window" ∈ tick_topics := by
    simp [tick_topics, ROOMS, topic]
  have h2 := hall _ h1 (by simp [topic])
  have h3 : (run_tick pub_fail_room1_temp).1 = [topic "room1" "humidity"] := by
    rfl
  rw [h3] at h2
  simp [topic] at h2

/-- C7 amended: the code has no per-publish error handling, so a
raising publish aborts the rest of the tick: exactly the topics
strictly before the first failing one are published, for every sink. -/
theorem publish_prefix_until_failure (pub : String → Except String Unit) :
    (run_tick pub).1 =
      tick_topics.takeWhile (fun t => (pub t).isOk) := by
  show (publish_seq pub tick_topics).1 = _
  induction tick_topics with
  | nil => rfl
  | cons t ts ih =>
    unfold publish_seq
    cases h : pub t with
    | ok v => simp [List.takeWhile_cons, h, Except.isOk, Except.toBool, ih]
    | error e => simp [List.takeWhile_cons, h, Except.isOk, Except.toBool]

/-- C8 counterexample: the temperature generator has no sensor-index
input and adds no per-sensor bias; at kitchen, hour 0, zero noise it
returns 20.0 while the spec's biased formula at sensor index 2 returns
20.2, so the generators do not satisfy the biased formula for every
index. -/
theorem no_per_sensor_bias :
    ¬ (∀ i : ℕ, spec_temperature_biased i "kitchen" ⟨0, 0, 0⟩ 50
        (fun _ => 0) =
      simulate_temperature "kitchen" ⟨0, 0, 0⟩ 50 (fun _ => 0)) := by
  intro hall
  have h := congrArg (fun p => p.1) (hall 2)
  have hl : (spec_temperature_biased 2 "kitchen" ⟨0, 0, 0⟩ 50
      (fun _ => 0)).1 = 20.2 := by
    simp [spec_temperature_biased, get_temperature_baseline,
      kitchen_temp_base, temp_bounds, clamp, round1, roundHalfEven]
    norm_num [Int.fract]
  have hr : (simulate_temperature "kitchen" ⟨0, 0, 0⟩ 50
      (fun _ => 0)).1 = 20.0 := by
    simp [simulate_temperature, get_temperature_baseline,
      kitchen_temp_base, temp_bounds, clamp, round1, roundHalfEven]
    norm_num [Int.fract]
  simp only [hl, hr] at h
  norm_num at h

/-- C8 amended: the program has exactly one sensor per type per room
(SENSOR_ID "1") and its generators take no sensor index and add no
bias; their output coincides with the spec's biased formulas exactly at
sensor index 1, where the bias is zero. -/
theorem generators_match_bias_at_index_one (profile : String) (t : Time)
    (hv : ℚ) (g : ℚ → ℚ) :
    spec_temperature_biased 1 profile t hv g =
      simulate_temperature profile t hv g ∧
    spec_humidity_biased 1 profile t g = simulate_humidity profile t g := by
  constructor
  · unfold spec_temperature_biased simulate_temperature
    norm_num
  · unfold spec_humidity_biased simulate_humidity
    norm_num

end SmartSim
